import Mathlib

set_option linter.unusedVariables false

/-!
Verification of the FloorPlanning repository (src/uinegative.jsx) against its
natural-language specification.

The single source file is a React component `FloorPlanGenerator`.  Its state
(`regions`, `rooms`, `adjacencies`, `settings`, `results`, and the pending
`newRegion` / `newRoom` / `newAdjacency` entries) is embedded below as the
structure `EditorState`, and each event handler relevant to the claims is
embedded as a pure state-transition function.  The "generation operation" of
the spec is the `generateFloorPlan` handler, which delegates to
`mockPythonFunctions.placeRooms` — in the source a hard-coded mock that ignores
its arguments and returns one fixed statistics record.

JavaScript numbers are modelled as `Int` where the source only ever holds
integers (coordinates, dimensions, counters) and as `ℚ` for the statistics
fields (the source literal `0.8` denotes the rational 4/5 here; the IEEE-754
double written `0.8` differs from 4/5 by about 4.4e-17, far below the 1e-9
tolerance used by the specification).  JavaScript string truthiness is
modelled as being non-empty; `parseInt(v) || d` is modelled by `jsOrIntDefault`
composed with a model `jsParseInt` of decimal `parseInt`.
-/

namespace FloorPlanning

/-- A floor region rectangle, as in the `regions` state (source lines 40-44). -/
structure Rect where
  x : Int
  y : Int
  width : Int
  height : Int
  deriving DecidableEq, Repr

/-- A room entry, as in the `rooms` state (source lines 47-53). -/
structure Room where
  name : String
  width : Int
  height : Int
  maxExpansion : Int
  deriving DecidableEq, Repr

/-- An adjacency requirement entry, as in the `adjacencies` state
(source lines 56-62). -/
structure Adjacency where
  room1 : String
  room2 : String
  deriving DecidableEq, Repr

/-- Algorithm settings, as in the `settings` state (source lines 65-68). -/
structure Settings where
  maxAttempts : Int
  enableExpansion : Bool
  deriving DecidableEq, Repr

/-- The statistics record returned by `mockPythonFunctions.placeRooms`
(source lines 23-30).  Note that the source record has exactly these fields:
there is no `placedRooms` field in the returned statistics. -/
structure Statistics where
  floorArea : ℚ
  roomArea : ℚ
  spaceUtilization : ℚ
  adjacencyScore : Int
  totalAdjacencies : Int
  adjacentPairs : List (String × String)
  deriving DecidableEq, Repr

/-- The value returned by `mockPythonFunctions.placeRooms`
(source lines 19-32). -/
structure PlaceResult where
  success : Bool
  statistics : Statistics
  deriving DecidableEq, Repr

/-- The fixed statistics record that `mockPythonFunctions.placeRooms` returns
regardless of its arguments (source lines 23-30). -/
def mockStatistics : Statistics :=
  { floorArea := 300
    roomArea := 240
    spaceUtilization := 0.8
    adjacencyScore := 5
    totalAdjacencies := 7
    adjacentPairs :=
      [ (("Living Room" : String), ("Kitchen" : String))
      , (("Kitchen" : String), ("Dining" : String))
      , (("Bedroom" : String), ("Bathroom" : String))
      , (("Living Room" : String), ("Bedroom" : String))
      , (("Bathroom" : String), ("Kitchen" : String)) ] }

/-- `mockPythonFunctions.placeRooms` (source lines 19-32): ignores both
arguments apart from logging them and always reports success with the fixed
statistics record. -/
def mockPlaceRooms (maxAttempts : Int) (enableExpansion : Bool) : PlaceResult :=
  { success := true, statistics := mockStatistics }

/-- `mockPythonFunctions.createFloorPlan` (source lines 6-10): logs and reports
success; it has no effect on any state. -/
def mockCreateFloorPlan (regions : List Rect) : Bool :=
  true

/-- `mockPythonFunctions.addRoom` (source lines 11-14): logs and reports
success; it has no effect on any state. -/
def mockAddRoom (name : String) (width : Int) (height : Int)
    (maxExpansion : Int) : Bool :=
  true

/-- `mockPythonFunctions.addAdjacency` (source lines 15-18): logs and reports
success; it has no effect on any state. -/
def mockAddAdjacencyCall (room1 : String) (room2 : String) : Bool :=
  true

/-- The component state of `FloorPlanGenerator` (source lines 40-79), limited
to the fields the embedded handlers read or write. -/
structure EditorState where
  regions : List Rect
  rooms : List Room
  adjacencies : List Adjacency
  settings : Settings
  results : Option Statistics
  newRegion : Rect
  newRoom : Room
  newAdjacency : Adjacency
  deriving DecidableEq, Repr

/-- The initial component state (source lines 40-79). -/
def defaultState : EditorState :=
  { regions :=
      [ { x := 0, y := 0, width := 5, height := 15 }
      , { x := 5, y := 0, width := 10, height := 5 }
      , { x := 15, y := 0, width := 5, height := 15 } ]
    rooms :=
      [ { name := "Living Room", width := 6, height := 4, maxExpansion := 10 }
      , { name := "Kitchen", width := 5, height := 4, maxExpansion := 8 }
      , { name := "Dining", width := 4, height := 4, maxExpansion := 6 }
      , { name := "Bedroom", width := 5, height := 5, maxExpansion := 5 }
      , { name := "Bathroom", width := 3, height := 3, maxExpansion := 2 } ]
    adjacencies :=
      [ { room1 := "Living Room", room2 := "Kitchen" }
      , { room1 := "Kitchen", room2 := "Dining" }
      , { room1 := "Living Room", room2 := "Bedroom" }
      , { room1 := "Bedroom", room2 := "Bathroom" }
      , { room1 := "Bathroom", room2 := "Kitchen" } ]
    settings := { maxAttempts := 5000, enableExpansion := true }
    results := none
    newRegion := { x := 0, y := 0, width := 5, height := 5 }
    newRoom := { name := "", width := 4, height := 4, maxExpansion := 5 }
    newAdjacency := { room1 := "", room2 := "" } }

/-- `generateFloorPlan` (source lines 148-168): calls the mock stand-ins for
the backend (which have no state effect), then calls `placeRooms` with the
current settings and, on success, stores the returned statistics in
`results`.  It performs no validation of any input. -/
def generateFloorPlan (s : EditorState) : EditorState :=
  let _ := mockCreateFloorPlan s.regions
  let _ := s.rooms.map fun room =>
    mockAddRoom room.name room.width room.height room.maxExpansion
  let _ := s.adjacencies.map fun adj =>
    mockAddAdjacencyCall adj.room1 adj.room2
  let result := mockPlaceRooms s.settings.maxAttempts s.settings.enableExpansion
  if result.success then { s with results := some result.statistics } else s

/-- `removeRoom` (source lines 108-122): reads the name of the room at
`index`, removes every adjacency mentioning that name, and removes the room.
The source indexes `rooms[index]` unconditionally; the out-of-range case
(unreachable from the UI, which only renders in-range indices) is modelled as
a no-op. -/
def removeRoom (index : Nat) (s : EditorState) : EditorState :=
  match s.rooms[index]? with
  | none => s
  | some room =>
      let roomName := room.name
      { s with
          adjacencies := s.adjacencies.filter fun adj =>
            decide (adj.room1 ≠ roomName ∧ adj.room2 ≠ roomName)
          rooms := s.rooms.eraseIdx index }

/-- The room-name `onChange` handler of `RoomsSection` (source lines 292-310):
stores the new name at `index` and, only when the old name is truthy
(non-empty), rewrites the old name to the new one in every adjacency — for
each adjacency, `room1` is rewritten if it matches, otherwise `room2` is
rewritten if it matches.  Out-of-range `index` (unreachable from the UI) is
modelled as a no-op. -/
def renameRoom (index : Nat) (newName : String) (s : EditorState) : EditorState :=
  match s.rooms[index]? with
  | none => s
  | some room =>
      let oldName := room.name
      let updatedRooms := s.rooms.set index { room with name := newName }
      if oldName ≠ "" then
        { s with
            rooms := updatedRooms
            adjacencies := s.adjacencies.map fun adj =>
              if adj.room1 = oldName then { adj with room1 := newName }
              else if adj.room2 = oldName then { adj with room2 := newName }
              else adj }
      else { s with rooms := updatedRooms }

/-- The duplicate test of `addAdjacency` (source lines 128-131): the candidate
equals an existing entry as an unordered pair. -/
def isDupAdjacency (na : Adjacency) (adj : Adjacency) : Bool :=
  decide ((adj.room1 = na.room1 ∧ adj.room2 = na.room2) ∨
          (adj.room1 = na.room2 ∧ adj.room2 = na.room1))

/-- `addAdjacency` (source lines 125-138): if both pending names are truthy
(non-empty) and distinct, and the unordered pair does not already occur in the
list, append it and clear the pending entry; otherwise leave the state
unchanged.  The function does not check that the names denote existing rooms. -/
def addAdjacency (s : EditorState) : EditorState :=
  if s.newAdjacency.room1 ≠ "" ∧ s.newAdjacency.room2 ≠ "" ∧
      s.newAdjacency.room1 ≠ s.newAdjacency.room2 then
    if s.adjacencies.any (isDupAdjacency s.newAdjacency) then s
    else
      { s with
          adjacencies := s.adjacencies ++ [s.newAdjacency]
          newAdjacency := { room1 := "", room2 := "" } }
  else s

/-- JavaScript whitespace skipped by `parseInt` (the forms relevant here). -/
def isJsWhitespace (c : Char) : Bool :=
  c = ' ' ∨ c = '\t' ∨ c = '\n' ∨ c = '\r'

/-- Longest prefix of decimal digits. -/
def digitsPrefix : List Char → List Char
  | [] => []
  | c :: cs => if c.isDigit then c :: digitsPrefix cs else []

/-- Numeric value of a list of decimal digits. -/
def digitsVal (ds : List Char) : Nat :=
  ds.foldl (fun acc c => 10 * acc + (c.toNat - 48)) 0

/-- Model of JavaScript `parseInt(v)` on decimal input: skip leading
whitespace, read an optional sign and a maximal run of decimal digits;
`none` models `NaN` when no digits are found.  (The hexadecimal `0x` prefix of
the full JavaScript semantics is irrelevant to the inputs considered.) -/
def jsParseInt (v : String) : Option Int :=
  let cs := v.data.dropWhile isJsWhitespace
  match cs with
  | '-' :: rest =>
      let ds := digitsPrefix rest
      if ds.isEmpty then none else some (-(digitsVal ds : Int))
  | '+' :: rest =>
      let ds := digitsPrefix rest
      if ds.isEmpty then none else some ((digitsVal ds : Int))
  | _ =>
      let ds := digitsPrefix cs
      if ds.isEmpty then none else some ((digitsVal ds : Int))

/-- JavaScript `x || d` applied to the result of `parseInt`: `NaN` (`none`)
and `0` are falsy and yield the default. -/
def jsOrIntDefault : Option Int → Int → Int
  | some n, d => if n = 0 then d else n
  | none, d => d

/-- The Maximum Attempts `onChange` handler of `SettingsSection`
(source lines 477-483): stores `parseInt(value) || 1000`. -/
def handleMaxAttemptsChange (v : String) (s : EditorState) : EditorState :=
  { s with settings :=
      { s.settings with maxAttempts := jsOrIntDefault (jsParseInt v) 1000 } }

/-- Referential integrity of the adjacency list: each endpoint name of each
adjacency is the name of some room in the room list. -/
def adjRefIntegrity (s : EditorState) : Prop :=
  ∀ adj ∈ s.adjacencies,
    (∃ r ∈ s.rooms, r.name = adj.room1) ∧ (∃ r ∈ s.rooms, r.name = adj.room2)

instance (s : EditorState) : Decidable (adjRefIntegrity s) := by
  unfold adjRefIntegrity
  infer_instance

/-- Sum of the base areas of a list of rooms (`width * height` summed).
This characterises the input class of the spec's Scenario B; it is not
computed anywhere in the source. -/
def sumRoomBaseAreas (rooms : List Room) : Int :=
  (rooms.map fun r => r.width * r.height).sum

/-- Sum of the areas of a list of floor regions.  For pairwise-disjoint
regions (as in all inputs considered here) this is the area of their union.
This characterises the input class of the spec's Scenario B; it is not
computed anywhere in the source. -/
def sumRegionAreas (regions : List Rect) : Int :=
  (regions.map fun r => r.width * r.height).sum

/-! Concrete strings and states used by the theorems below.  String literals
are bound to named constants so they can be passed to functions by name. -/

/-- The string written 0. -/
def strZero : String := "0"

/-- The string written abc (a non-numeric settings entry). -/
def strAbc : String := "abc"

/-- The string written -5 (a negative settings entry). -/
def strNeg5 : String := "-5"

/-- The room name A. -/
def strA : String := "A"

/-- The room name B. -/
def strB : String := "B"

/-- The room name C. -/
def strC : String := "C"

/-- The room name Big. -/
def strBig : String := "Big"

/-- Helper room named A. -/
def roomA : Room := { name := strA, width := 4, height := 4, maxExpansion := 0 }

/-- Helper room named B. -/
def roomB : Room := { name := strB, width := 3, height := 3, maxExpansion := 0 }

/-- List membership survives `eraseIdx` for an element distinct from the one
at the erased index. -/
theorem mem_eraseIdx_of_ne {α : Type} {l : List α} {i : Nat} {a b : α}
    (ha : a ∈ l) (hb : l[i]? = some b) (hab : a ≠ b) : a ∈ l.eraseIdx i := by
  induction l generalizing i with
  | nil => cases ha
  | cons x xs ih =>
    cases i with
    | zero =>
      simp only [List.getElem?_cons_zero, Option.some.injEq] at hb
      subst hb
      rcases List.mem_cons.mp ha with h | h
      · exact absurd h hab
      · simpa [List.eraseIdx] using h
    | succ n =>
      simp only [List.getElem?_cons_succ] at hb
      rcases List.mem_cons.mp ha with h | h
      · simp [List.eraseIdx, h]
      · simp [List.eraseIdx, ih h hb]

/-- List membership survives `set` for an element distinct from the one at the
updated index. -/
theorem mem_set_of_ne {α : Type} {l : List α} {i : Nat} {a b x : α}
    (ha : a ∈ l) (hb : l[i]? = some b) (hab : a ≠ b) : a ∈ l.set i x := by
  induction l generalizing i with
  | nil => cases ha
  | cons y ys ih =>
    cases i with
    | zero =>
      simp only [List.getElem?_cons_zero, Option.some.injEq] at hb
      subst hb
      rcases List.mem_cons.mp ha with h | h
      · exact absurd h hab
      · simp [List.set, h]
    | succ n =>
      simp only [List.getElem?_cons_succ] at hb
      rcases List.mem_cons.mp ha with h | h
      · simp [List.set, h]
      · simp [List.set, ih h hb]

/-- The element written by `set` at an in-range index is a member of the
result. -/
theorem mem_set_self {α : Type} {l : List α} {i : Nat} {b : α} (x : α)
    (hb : l[i]? = some b) : x ∈ l.set i x := by
  induction l generalizing i with
  | nil => simp at hb
  | cons y ys ih =>
    cases i with
    | zero => simp [List.set]
    | succ n =>
      simp only [List.getElem?_cons_succ] at hb
      simp [List.set, ih hb]

/-- C1 counterexample.  For the program's default input state the generation
operation stores the fixed mock statistics, whose `totalAdjacencies` field is
7, not 5 as the claim requires — even though the default input has exactly 5
adjacency requirements.  (The returned statistics record moreover has no
`placedRooms` field at all, see `Statistics`.) -/
theorem c1_scenarioA_counterexample :
    (generateFloorPlan defaultState).results = some mockStatistics ∧
      defaultState.adjacencies.length = 5 ∧
      mockStatistics.totalAdjacencies = 7 ∧
      ¬ mockStatistics.totalAdjacencies = 5 := by
  refine ⟨rfl, rfl, rfl, ?_⟩
  decide

/-- C1 amended.  For the default input state the generation operation produces
the fixed Result with `totalAdjacencies = 7` (not 5); its `adjacencyScore`
lies between 0 and 5 inclusive, its `spaceUtilization` lies in (0,1], and its
`adjacentPairs` has length 5; the returned statistics carry no `placedRooms`
list. -/
theorem c1_scenarioA_amended :
    (generateFloorPlan defaultState).results = some mockStatistics ∧
      defaultState.adjacencies.length = 5 ∧
      mockStatistics.totalAdjacencies = 7 ∧
      0 ≤ mockStatistics.adjacencyScore ∧ mockStatistics.adjacencyScore ≤ 5 ∧
      0 < mockStatistics.spaceUtilization ∧ mockStatistics.spaceUtilization ≤ 1 ∧
      mockStatistics.adjacentPairs.length = 5 := by
  refine ⟨rfl, rfl, rfl, ?_, ?_, ?_, ?_, rfl⟩ <;> norm_num [mockStatistics]

/-- The default state with the adjacency list emptied; input for the C2
counterexample. -/
def c2state : EditorState := { defaultState with adjacencies := [] }

/-- C2 counterexample.  It is not the case that in every Result the
`adjacentPairs` list consists of input adjacency pairs in input order (a
consequence of listing exactly the satisfied requirements in input order):
with an empty input adjacency list, the Result still lists five hard-coded
pairs, which cannot be a sublist of the empty input list. -/
theorem c2_adjacency_score_counterexample :
    ¬ ∀ (s : EditorState) (stats : Statistics),
        (generateFloorPlan s).results = some stats →
          stats.adjacentPairs.Sublist
            (s.adjacencies.map fun adj => (adj.room1, adj.room2)) := by
  intro h
  have h2 := h c2state mockStatistics rfl
  simp [c2state, mockStatistics] at h2

/-- C2 amended.  In every Result produced by the generation operation the
statistics are the fixed mock record, independent of the input adjacency
list; its `adjacencyScore` (5) does equal the length of its `adjacentPairs`
(5), but the pairs are hard-coded and bear no relation to the input list or
its order. -/
theorem c2_adjacency_score_amended (s : EditorState) :
    (generateFloorPlan s).results = some mockStatistics ∧
      mockStatistics.adjacencyScore = (mockStatistics.adjacentPairs.length : Int) := by
  exact ⟨rfl, rfl⟩

/-- C3.  In every Result produced by the generation operation,
`spaceUtilization` equals `roomArea / floorArea` within 1e-9 (here exactly:
0.8 = 240 / 300). -/
theorem c3_space_utilization (s : EditorState) (stats : Statistics)
    (h : (generateFloorPlan s).results = some stats) :
    |stats.spaceUtilization - stats.roomArea / stats.floorArea| ≤ 1 / 1000000000 := by
  have h2 : mockStatistics = stats := by
    simpa [generateFloorPlan, mockPlaceRooms] using h
  subst h2
  norm_num [mockStatistics]

/-- C3 witness: the theorem applied to the default state. -/
theorem c3_space_utilization_witness :
    (generateFloorPlan defaultState).results = some mockStatistics ∧
      |mockStatistics.spaceUtilization -
          mockStatistics.roomArea / mockStatistics.floorArea| ≤ 1 / 1000000000 :=
  ⟨rfl, c3_space_utilization defaultState mockStatistics rfl⟩

/-- An input whose single room's base area (100) exceeds the floor's total
area (1); input for the C4 counterexample. -/
def c4state : EditorState :=
  { defaultState with
      regions := [ { x := 0, y := 0, width := 1, height := 1 } ]
      rooms := [ { name := strBig, width := 10, height := 10, maxExpansion := 0 } ]
      adjacencies := [] }

/-- C4 counterexample.  On an input whose summed room base areas (100) exceed
the floor's total area (1), the generation operation does not fail: the mock
placement call reports success and the fixed statistics are stored as a
successful Result.  No `NoFeasiblePlacementError` (or any error path) exists
in the code. -/
theorem c4_infeasible_counterexample :
    sumRegionAreas c4state.regions < sumRoomBaseAreas c4state.rooms ∧
      (mockPlaceRooms c4state.settings.maxAttempts
          c4state.settings.enableExpansion).success = true ∧
      (generateFloorPlan c4state).results = some mockStatistics := by
  refine ⟨?_, rfl, rfl⟩
  decide

/-- C4 amended.  For every input in which the sum of the rooms' base areas
exceeds the floor's total area, the generation operation still succeeds and
stores the fixed mock statistics; it never produces a
`NoFeasiblePlacementError`. -/
theorem c4_infeasible_amended (s : EditorState)
    (h : sumRegionAreas s.regions < sumRoomBaseAreas s.rooms) :
    (generateFloorPlan s).results = some mockStatistics := by
  rfl

/-- C4 amended witness: the amended theorem applied to `c4state`. -/
theorem c4_infeasible_amended_witness :
    sumRegionAreas c4state.regions < sumRoomBaseAreas c4state.rooms ∧
      (generateFloorPlan c4state).results = some mockStatistics :=
  ⟨by decide, c4_infeasible_amended c4state (by decide)⟩

/-- The default state with `maxAttempts` set to -5; input for the C5
counterexample. -/
def c5state : EditorState :=
  { defaultState with settings := { maxAttempts := -5, enableExpansion := true } }

/-- C5 counterexample.  With `maxAttempts = -5` the configuration is not
rejected: `generateFloorPlan` performs the placement call as usual and stores
its statistics.  The code contains no validation of `maxAttempts` before the
placement call. -/
theorem c5_invalid_attempts_counterexample :
    c5state.settings.maxAttempts = -5 ∧
      (generateFloorPlan c5state).results = some mockStatistics :=
  ⟨rfl, rfl⟩

/-- C5 amended.  For every invocation with `maxAttempts` zero or negative,
the generation operation does not reject the configuration: the placement
call runs and the fixed mock statistics are stored as a successful Result. -/
theorem c5_invalid_attempts_amended (s : EditorState)
    (h : s.settings.maxAttempts ≤ 0) :
    (generateFloorPlan s).results = some mockStatistics := by
  rfl

/-- C5 amended witness: the amended theorem applied to `c5state`. -/
theorem c5_invalid_attempts_amended_witness :
    c5state.settings.maxAttempts ≤ 0 ∧
      (generateFloorPlan c5state).results = some mockStatistics :=
  ⟨by decide, c5_invalid_attempts_amended c5state (by decide)⟩

/-- A state whose adjacency list holds the pair (A, B) and whose pending
entry is the reversed pair (B, A); input for the C6 counterexample. -/
def c6state : EditorState :=
  { defaultState with
      rooms := [ roomA, roomB ]
      adjacencies := [ { room1 := strA, room2 := strB } ]
      newAdjacency := { room1 := strB, room2 := strA } }

/-- C6 counterexample.  Adding an adjacency whose unordered pair already
appears in the list is not permitted: with (A, B) present and (B, A) pending,
`addAdjacency` leaves the whole state — in particular the adjacency list —
unchanged, so the duplicate is never accepted. -/
theorem c6_duplicate_counterexample :
    c6state.adjacencies.any (isDupAdjacency c6state.newAdjacency) = true ∧
      addAdjacency c6state = c6state ∧
      (addAdjacency c6state).adjacencies.length = 1 := by
  refine ⟨?_, ?_, rfl⟩ <;> decide

/-- C6 amended.  `addAdjacency` rejects duplicates at insertion time: whenever
the pending pair already occurs in the list as an unordered pair, the state is
returned unchanged.  Deduplication before scoring never arises because
duplicates never enter the list (and the mock scoring ignores the list
anyway). -/
theorem c6_duplicate_amended (s : EditorState)
    (h : s.adjacencies.any (isDupAdjacency s.newAdjacency) = true) :
    addAdjacency s = s := by
  unfold addAdjacency
  by_cases hg : s.newAdjacency.room1 ≠ "" ∧ s.newAdjacency.room2 ≠ "" ∧
      s.newAdjacency.room1 ≠ s.newAdjacency.room2
  · rw [if_pos hg, if_pos h]
  · rw [if_neg hg]

/-- C6 amended witness: the amended theorem applied to `c6state`. -/
theorem c6_duplicate_amended_witness :
    c6state.adjacencies.any (isDupAdjacency c6state.newAdjacency) = true ∧
      addAdjacency c6state = c6state :=
  ⟨by decide, c6_duplicate_amended c6state (by decide)⟩

/-- C7.  The generation operation never mutates the caller-owned input
structures: after any invocation the floor-region list, the room list, the
adjacency list and the settings are identical to their values before the
call; only the `results` field can change. -/
theorem c7_no_input_mutation (s : EditorState) :
    (generateFloorPlan s).regions = s.regions ∧
      (generateFloorPlan s).rooms = s.rooms ∧
      (generateFloorPlan s).adjacencies = s.adjacencies ∧
      (generateFloorPlan s).settings = s.settings ∧
      generateFloorPlan s = { s with results := some mockStatistics } :=
  ⟨rfl, rfl, rfl, rfl, rfl⟩

/-- A state with `maxAttempts = 1`; run A of the C8 determinism check. -/
def c8stateA : EditorState :=
  { defaultState with settings := { maxAttempts := 1, enableExpansion := true } }

/-- The same inputs as `c8stateA` but with a stale previous result in the
state; run B of the C8 determinism check. -/
def c8stateB : EditorState :=
  { c8stateA with results := some mockStatistics }

/-- C8.  With `maxAttempts = 1`, two runs of the generation operation on
identical inputs produce identical outputs: the stored result depends only on
the input regions, rooms, adjacencies and settings.  (The mock takes no seed;
it is a constant function, so the output is reproducible a fortiori.) -/
theorem c8_deterministic (s t : EditorState)
    (h1 : s.settings.maxAttempts = 1)
    (hset : t.settings = s.settings)
    (hreg : t.regions = s.regions)
    (hrooms : t.rooms = s.rooms)
    (hadj : t.adjacencies = s.adjacencies) :
    (generateFloorPlan s).results = (generateFloorPlan t).results := by
  rfl

/-- C8 witness: two runs on the same inputs — one starting from a state with
no previous result, one with a stale result — store the same statistics. -/
theorem c8_deterministic_witness :
    c8stateA.settings.maxAttempts = 1 ∧
      (generateFloorPlan c8stateA).results = (generateFloorPlan c8stateB).results :=
  ⟨rfl, c8_deterministic c8stateA c8stateB rfl rfl rfl rfl rfl⟩

/-- C10.  The Maximum Attempts handler stores `parseInt(v) || 1000`: the
parsed value when it parses to a nonzero number, and 1000 when the parse
yields 0 or NaN.  Entering 0 or a non-numeric string therefore stores 1000,
while entering -5 stores -5; and `generateFloorPlan` passes the stored
`maxAttempts` to the placement call with no validation, always storing the
statistics the call returns. -/
theorem c10_max_attempts_handler :
    (∀ (v : String) (s : EditorState),
        (handleMaxAttemptsChange v s).settings.maxAttempts =
          match jsParseInt v with
          | some n => if n = 0 then 1000 else n
          | none => 1000) ∧
    (∀ s : EditorState,
        (handleMaxAttemptsChange strZero s).settings.maxAttempts = 1000) ∧
    (∀ s : EditorState,
        (handleMaxAttemptsChange strAbc s).settings.maxAttempts = 1000) ∧
    (∀ s : EditorState,
        (handleMaxAttemptsChange strNeg5 s).settings.maxAttempts = -5) ∧
    (∀ s : EditorState,
        (generateFloorPlan s).results =
          some (mockPlaceRooms s.settings.maxAttempts
              s.settings.enableExpansion).statistics) := by
  refine ⟨fun v s => ?_, fun s => ?_, fun s => ?_, fun s => ?_, fun s => rfl⟩
  · show jsOrIntDefault (jsParseInt v) 1000 = _
    cases jsParseInt v <;> rfl
  · rfl
  · rfl
  · rfl

/-- A room whose name is the empty string.  Reachable in the editor: the
rename handler stores `e.target.value` unconditionally, so clearing a room's
name field produces it (and rewrites adjacencies to reference the empty
name, since the old name was then still truthy). -/
def roomBlank : Room := { name := "", width := 4, height := 4, maxExpansion := 0 }

/-- A state satisfying referential integrity in which a room is named by the
empty string and an adjacency references it; input for the C9
counterexample. -/
def c9state : EditorState :=
  { defaultState with
      rooms := [ roomBlank, roomB ]
      adjacencies := [ { room1 := "", room2 := strB } ] }

/-- C9 counterexample.  The rename handler does not always preserve
referential integrity: it skips the adjacency rewrite when the old name is
falsy (the empty string), so renaming the empty-named room of `c9state` to C
leaves an adjacency referencing the now-nonexistent empty name. -/
theorem c9_integrity_counterexample :
    adjRefIntegrity c9state ∧ ¬ adjRefIntegrity (renameRoom 0 strC c9state) := by
  decide

/-- A state with rooms A and B, no adjacencies, and the pending pair (A, B);
input for the `addAdjacency` part of the C9 witness. -/
def c9addState : EditorState :=
  { defaultState with
      rooms := [ roomA, roomB ]
      adjacencies := []
      newAdjacency := { room1 := strA, room2 := strB } }

/-- C9 amended.  Referential integrity of the adjacency list is preserved by
`removeRoom` unconditionally; by the rename handler provided the renamed
room's old name is non-empty (the handler skips the adjacency rewrite for a
falsy old name) and no adjacency links that old name to itself (the handler
rewrites only one endpoint of such a pair); and by `addAdjacency` provided
the pending pair's two names denote rooms present in the room list (the
function itself performs no such check; the UI's selects normally ensure
it). -/
theorem c9_integrity_amended :
    (∀ (i : Nat) (s : EditorState),
        adjRefIntegrity s → adjRefIntegrity (removeRoom i s)) ∧
    (∀ (i : Nat) (newName : String) (s : EditorState) (room : Room),
        s.rooms[i]? = some room → room.name ≠ "" →
        (∀ adj ∈ s.adjacencies, ¬ (adj.room1 = room.name ∧ adj.room2 = room.name)) →
        adjRefIntegrity s → adjRefIntegrity (renameRoom i newName s)) ∧
    (∀ s : EditorState,
        (∃ r ∈ s.rooms, r.name = s.newAdjacency.room1) →
        (∃ r ∈ s.rooms, r.name = s.newAdjacency.room2) →
        adjRefIntegrity s → adjRefIntegrity (addAdjacency s)) := by
  refine ⟨?_, ?_, ?_⟩
  · intro i s hs
    unfold removeRoom
    cases hidx : s.rooms[i]? with
    | none => exact hs
    | some room =>
      intro adj hadj
      simp only [List.mem_filter, decide_eq_true_eq] at hadj
      obtain ⟨hmem, hne1, hne2⟩ := hadj
      obtain ⟨⟨r1, hr1m, hr1n⟩, ⟨r2, hr2m, hr2n⟩⟩ := hs adj hmem
      constructor
      · exact ⟨r1, mem_eraseIdx_of_ne hr1m hidx (fun he => hne1 ((he ▸ hr1n)).symm), hr1n⟩
      · exact ⟨r2, mem_eraseIdx_of_ne hr2m hidx (fun he => hne2 ((he ▸ hr2n)).symm), hr2n⟩
  · intro i newName s room hidx hold hnoself hs
    unfold renameRoom
    rw [hidx]
    dsimp only
    rw [if_pos hold]
    intro adj hadj
    simp only [List.mem_map] at hadj
    obtain ⟨adj0, hadj0, hfe⟩ := hadj
    subst hfe
    obtain ⟨⟨r1, hr1m, hr1n⟩, ⟨r2, hr2m, hr2n⟩⟩ := hs adj0 hadj0
    by_cases h1 : adj0.room1 = room.name
    · rw [if_pos h1]
      have h2 : adj0.room2 ≠ room.name := fun hc => hnoself adj0 hadj0 ⟨h1, hc⟩
      constructor
      · exact ⟨{ room with name := newName }, mem_set_self _ hidx, rfl⟩
      · exact ⟨r2, mem_set_of_ne hr2m hidx (fun he => h2 ((he ▸ hr2n)).symm), hr2n⟩
    · rw [if_neg h1]
      by_cases h2 : adj0.room2 = room.name
      · rw [if_pos h2]
        constructor
        · exact ⟨r1, mem_set_of_ne hr1m hidx (fun he => h1 ((he ▸ hr1n)).symm), hr1n⟩
        · exact ⟨{ room with name := newName }, mem_set_self _ hidx, rfl⟩
      · rw [if_neg h2]
        constructor
        · exact ⟨r1, mem_set_of_ne hr1m hidx (fun he => h1 ((he ▸ hr1n)).symm), hr1n⟩
        · exact ⟨r2, mem_set_of_ne hr2m hidx (fun he => h2 ((he ▸ hr2n)).symm), hr2n⟩
  · intro s h1 h2 hs
    unfold addAdjacency
    by_cases hg : s.newAdjacency.room1 ≠ "" ∧ s.newAdjacency.room2 ≠ "" ∧
        s.newAdjacency.room1 ≠ s.newAdjacency.room2
    · rw [if_pos hg]
      by_cases hd : s.adjacencies.any (isDupAdjacency s.newAdjacency) = true
      · rw [if_pos hd]
        exact hs
      · rw [if_neg hd]
        intro adj hadj
        rcases List.mem_append.mp hadj with hmem | hmem
        · exact hs adj hmem
        · have he : adj = s.newAdjacency := List.mem_singleton.mp hmem
          subst he
          exact ⟨h1, h2⟩
    · rw [if_neg hg]
      exact hs

/-- C9 amended witness: each part of the amended theorem applied to a
concrete state — removing and renaming the first default room, and adding
the pending pair (A, B) between two existing rooms. -/
theorem c9_integrity_amended_witness :
    adjRefIntegrity (removeRoom 0 defaultState) ∧
      adjRefIntegrity (renameRoom 0 strC defaultState) ∧
      adjRefIntegrity (addAdjacency c9addState) :=
  ⟨c9_integrity_amended.1 0 defaultState (by decide),
   c9_integrity_amended.2.1 0 strC defaultState
     { name := "Living Room", width := 6, height := 4, maxExpansion := 10 }
     (by decide) (by decide) (by decide) (by decide),
   c9_integrity_amended.2.2 c9addState (by decide) (by decide) (by decide)⟩

end FloorPlanning
